import Mathlib

/-!
Verification of the `halldyll-starter` pod state-reconciliation engine.

The definitions below are a shallow embedding of `src/runpod_state.rs`
(entity model, `RunPodState::reconcile`, `JsonFileStateStore`) and of the
readiness poller `RunpodOrchestrator::wait_for_ready` in
`src/runpod_orchestrator.rs`.  Machine integers (`u32`/`u64`/`u16`) are
modelled as `Nat`; Rust's `u64::saturating_sub` is `Nat` subtraction.
-/

namespace Halldyll

/-- State file format version (`STATE_FORMAT_VERSION` in `runpod_state.rs`). -/
def STATE_FORMAT_VERSION : Nat := 1

/-- Remote pod lifecycle status (`PodDesiredStatus`). -/
inductive PodDesiredStatus
  | Running
  | Exited
  | Terminated
deriving DecidableEq, Repr

/-- Local target status (`TargetStatus`); the Rust `Default` is `Running`. -/
inductive TargetStatus
  | Running
  | Exited
  | Terminated
deriving DecidableEq, Repr

/-- Newtype for pod identifiers (`PodId(String)`). -/
structure PodId where
  raw : String
deriving DecidableEq, Repr

/-- Minimal snapshot of remote pod state (`RemotePodSnapshot`). -/
structure RemotePodSnapshot where
  id : PodId
  name : String
  desired_status : PodDesiredStatus
  observed_at_ms : Nat
deriving DecidableEq, Repr

/-- Remote observation result (`RemoteObservation`). -/
inductive RemoteObservation
  | Found (snapshot : RemotePodSnapshot)
  | NotFound
  | Unknown
deriving DecidableEq, Repr

/-- Planned actions (`PlannedAction`). -/
inductive PlannedAction
  | Noop
  | CreatePod (name : String)
  | StartPod (id : PodId)
  | StopPod (id : PodId)
  | TerminatePod (id : PodId)
deriving DecidableEq, Repr

/-- Local policy (`StatePolicy`). -/
structure StatePolicy where
  reuse_exited_pod : Bool
  auto_terminate_after_exited_ms : Option Nat
deriving DecidableEq, Repr

/-- Default policy (`StatePolicy::default`). -/
def StatePolicy.default : StatePolicy :=
  { reuse_exited_pod := true, auto_terminate_after_exited_ms := none }

/-- Persistent pod state (`RunPodState`). -/
structure RunPodState where
  format_version : Nat
  pod_name : String
  pod_id : Option PodId
  target : TargetStatus
  last_remote : Option RemotePodSnapshot
  last_updated_ms : Nat
  policy : StatePolicy
deriving DecidableEq, Repr

/-- Initial state (`RunPodState::new`). -/
def RunPodState.new (pod_name : String) (now_ms : Nat) : RunPodState :=
  { format_version := STATE_FORMAT_VERSION
    pod_name := pod_name
    pod_id := none
    target := TargetStatus.Running
    last_remote := none
    last_updated_ms := now_ms
    policy := StatePolicy.default }

/-- Set the local target state (`RunPodState::set_target`). -/
def RunPodState.set_target (s : RunPodState) (target : TargetStatus) (now_ms : Nat) :
    RunPodState :=
  { s with target := target, last_updated_ms := now_ms }

/-- Record a successful creation (`RunPodState::apply_created`). -/
def RunPodState.apply_created (s : RunPodState) (id : PodId) (now_ms : Nat) : RunPodState :=
  { s with pod_id := some id, last_updated_ms := now_ms }

/-- Record a successful termination (`RunPodState::apply_terminated`). -/
def RunPodState.apply_terminated (s : RunPodState) (now_ms : Nat) : RunPodState :=
  { s with pod_id := none, last_remote := none, last_updated_ms := now_ms }

/-- Step 1 of `reconcile`: assimilate the remote observation, returning the
updated state and the effective observed status for this round. -/
def assimilate (s : RunPodState) (observation : RemoteObservation) :
    RunPodState × Option PodDesiredStatus :=
  match observation with
  | RemoteObservation.Found snapshot =>
      ({ s with pod_id := some snapshot.id, last_remote := some snapshot },
       some snapshot.desired_status)
  | RemoteObservation.NotFound =>
      ({ s with last_remote := none }, none)
  | RemoteObservation.Unknown =>
      (s, s.last_remote.map (fun r => r.desired_status))

/-- Step 2 of `reconcile`: apply the auto-terminate-after-exited policy
override (`now_ms.saturating_sub(observed_at_ms) >= policy_ms`). -/
def applyPolicy (s : RunPodState) (now_ms : Nat) : RunPodState :=
  match s.policy.auto_terminate_after_exited_ms, s.last_remote with
  | some policy_ms, some remote =>
      if remote.desired_status = PodDesiredStatus.Exited ∧
          policy_ms ≤ now_ms - remote.observed_at_ms then
        { s with target := TargetStatus.Terminated }
      else s
  | _, _ => s

/-- Step 3 of `reconcile`: the decision match over
(target, effective status, pod id), translated arm by arm from the source. -/
def decideAction (target : TargetStatus) (remote_status_opt : Option PodDesiredStatus)
    (pod_id : Option PodId) (pod_name : String) (reuse_exited_pod : Bool) : PlannedAction :=
  match target, remote_status_opt, pod_id with
  | TargetStatus.Terminated, none, _
  | TargetStatus.Terminated, some PodDesiredStatus.Terminated, _
  | TargetStatus.Running, some PodDesiredStatus.Running, _
  | TargetStatus.Exited, some PodDesiredStatus.Exited, _ =>
      PlannedAction.Noop
  | TargetStatus.Running, none, _
  | TargetStatus.Exited, none, _
  | TargetStatus.Running, some PodDesiredStatus.Terminated, _
  | TargetStatus.Exited, some PodDesiredStatus.Terminated, _
  | _, some _, none =>
      PlannedAction.CreatePod pod_name
  | TargetStatus.Running, some PodDesiredStatus.Exited, some id =>
      if reuse_exited_pod then PlannedAction.StartPod id
      else PlannedAction.CreatePod pod_name
  | TargetStatus.Exited, some PodDesiredStatus.Running, some id =>
      PlannedAction.StopPod id
  | TargetStatus.Terminated, some PodDesiredStatus.Running, some id
  | TargetStatus.Terminated, some PodDesiredStatus.Exited, some id =>
      PlannedAction.TerminatePod id

/-- Full `RunPodState::reconcile`: returns the mutated state and the action. -/
def reconcile (s : RunPodState) (observation : RemoteObservation) (now_ms : Nat) :
    RunPodState × PlannedAction :=
  let s1 := { s with last_updated_ms := now_ms }
  let p := assimilate s1 observation
  let s3 := applyPolicy p.1 now_ms
  (s3, decideAction s3.target p.2 s3.pod_id s3.pod_name s3.policy.reuse_exited_pod)

/-- The (target, effective status, pod id) triple that `reconcile` feeds into
its decision match. -/
def reconcileTriple (s : RunPodState) (observation : RemoteObservation) (now_ms : Nat) :
    TargetStatus × Option PodDesiredStatus × Option PodId :=
  let s1 := { s with last_updated_ms := now_ms }
  let p := assimilate s1 observation
  let s3 := applyPolicy p.1 now_ms
  (s3.target, p.2, s3.pod_id)

/-- Modelled from the spec: the 8-row decision table of section 4.2, applied
with first-matching-row-wins priority.  Rows 1-3 are the Noop rows, row 4 the
absent-or-Terminated Create row, row 5 the defensive id-less Create row, and
rows 6-8 Start/Stop/Terminate.  In the final match, the wildcard statuses are
the combinations not already consumed by rows 1-4. -/
def specTableAction (target : TargetStatus) (st : Option PodDesiredStatus)
    (pod_id : Option PodId) (pod_name : String) (reuse_exited_pod : Bool) : PlannedAction :=
  if target = TargetStatus.Terminated ∧
      (st = none ∨ st = some PodDesiredStatus.Terminated) then
    PlannedAction.Noop
  else if target = TargetStatus.Running ∧ st = some PodDesiredStatus.Running then
    PlannedAction.Noop
  else if target = TargetStatus.Exited ∧ st = some PodDesiredStatus.Exited then
    PlannedAction.Noop
  else if (target = TargetStatus.Running ∨ target = TargetStatus.Exited) ∧
      (st = none ∨ st = some PodDesiredStatus.Terminated) then
    PlannedAction.CreatePod pod_name
  else
    match target, pod_id with
    | _, none => PlannedAction.CreatePod pod_name
    | TargetStatus.Running, some id =>
        if reuse_exited_pod then PlannedAction.StartPod id
        else PlannedAction.CreatePod pod_name
    | TargetStatus.Exited, some id => PlannedAction.StopPod id
    | TargetStatus.Terminated, some id => PlannedAction.TerminatePod id

/-- Helper: the source's decision match coincides with the spec's priority
table on every input. -/
lemma decideAction_eq_specTableAction (t : TargetStatus) (st : Option PodDesiredStatus)
    (i : Option PodId) (name : String) (reuse : Bool) :
    decideAction t st i name reuse = specTableAction t st i name reuse := by
  rcases t with _ | _ | _ <;>
    rcases st with _ | (_ | _ | _) <;>
    rcases i with _ | i <;>
    rcases reuse with _ | _ <;>
    simp [decideAction, specTableAction]

/-- Helper: `assimilate` changes neither `pod_name` nor `policy`. -/
lemma assimilate_preserves_name_policy (s : RunPodState) (obs : RemoteObservation) :
    (assimilate s obs).1.pod_name = s.pod_name ∧ (assimilate s obs).1.policy = s.policy := by
  rcases obs with _ | _ | _ <;> simp [assimilate]

/-- Helper: `applyPolicy` changes neither `pod_name` nor `policy`. -/
lemma applyPolicy_preserves_name_policy (s : RunPodState) (now : Nat) :
    (applyPolicy s now).pod_name = s.pod_name ∧ (applyPolicy s now).policy = s.policy := by
  unfold applyPolicy
  rcases s.policy.auto_terminate_after_exited_ms with _ | pm <;>
    rcases s.last_remote with _ | r <;> simp <;> split <;> simp

/-- C1: for every state and every effective triple, `reconcile`'s decision is
exactly the spec's 8-row table (first matching row wins), and `reconcile`
always returns a `PlannedAction` through this exhaustive, fallback-free match
applied to the triple it computed. -/
theorem reconcile_matches_decision_table :
    (∀ (t : TargetStatus) (st : Option PodDesiredStatus) (i : Option PodId)
        (name : String) (reuse : Bool),
      decideAction t st i name reuse = specTableAction t st i name reuse) ∧
    (∀ (s : RunPodState) (obs : RemoteObservation) (now : Nat),
      (reconcile s obs now).2 =
        specTableAction (reconcileTriple s obs now).1 (reconcileTriple s obs now).2.1
          (reconcileTriple s obs now).2.2 s.pod_name s.policy.reuse_exited_pod) := by
  refine ⟨decideAction_eq_specTableAction, fun s obs now => ?_⟩
  have key :
      (reconcile s obs now).2 =
        decideAction (reconcileTriple s obs now).1 (reconcileTriple s obs now).2.1
          (reconcileTriple s obs now).2.2 s.pod_name s.policy.reuse_exited_pod := by
    show decideAction _ _ _ _ _ = decideAction _ _ _ _ _
    rw [(applyPolicy_preserves_name_policy _ _).1,
      (assimilate_preserves_name_policy _ _).1,
      (applyPolicy_preserves_name_policy _ _).2,
      (assimilate_preserves_name_policy _ _).2]
    rfl
  rw [key, decideAction_eq_specTableAction]

/-- Helper: `applyPolicy` only ever touches `target`; the other fields pass
through unchanged. -/
lemma applyPolicy_preserves_other_fields (s : RunPodState) (now : Nat) :
    (applyPolicy s now).pod_id = s.pod_id ∧ (applyPolicy s now).last_remote = s.last_remote ∧
    (applyPolicy s now).format_version = s.format_version ∧
    (applyPolicy s now).last_updated_ms = s.last_updated_ms := by
  obtain ⟨fv, pn, pid, tgt, lr, lu, reuse, auto⟩ := s
  rcases auto with _ | pm <;> rcases lr with _ | r <;>
    simp [applyPolicy] <;> split <;> simp

/-- Example state used to refute claim C2: a state that currently holds a pod
id. -/
def cxStateC2 : RunPodState :=
  { format_version := 1, pod_name := "halldyll", pod_id := some (PodId.mk "p1"),
    target := TargetStatus.Running, last_remote := none, last_updated_ms := 0,
    policy := StatePolicy.default }

/-- C2 counterexample: feeding `NotFound` to a state holding a pod id does not
clear `pod_id`; the source only clears `last_remote`. -/
theorem notFound_keeps_pod_id_cx :
    (reconcile cxStateC2 RemoteObservation.NotFound 5).1.pod_id = some (PodId.mk "p1") ∧
    some (PodId.mk "p1") ≠ (none : Option PodId) :=
  ⟨rfl, by simp⟩

/-- C2 amended: `reconcile` with `NotFound` clears `last_remote` but leaves
`pod_id` exactly as it was (so `pod_id` is `None` afterwards only if it was
`None` before). -/
theorem reconcile_notFound_clears_last_remote (s : RunPodState) (now : Nat) :
    (reconcile s RemoteObservation.NotFound now).1.last_remote = none ∧
    (reconcile s RemoteObservation.NotFound now).1.pod_id = s.pod_id := by
  have h := applyPolicy_preserves_other_fields
    (assimilate { s with last_updated_ms := now } RemoteObservation.NotFound).1 now
  exact ⟨h.2.1, h.1⟩

/-- C2 amended, witness. -/
theorem reconcile_notFound_clears_last_remote_witness :
    (reconcile cxStateC2 RemoteObservation.NotFound 5).1.last_remote = none ∧
    (reconcile cxStateC2 RemoteObservation.NotFound 5).1.pod_id = cxStateC2.pod_id :=
  reconcile_notFound_clears_last_remote cxStateC2 5

/-- Helper: `reconcile` with `Unknown` never changes `pod_id`. -/
lemma reconcile_unknown_pod_id (s : RunPodState) (now : Nat) :
    (reconcile s RemoteObservation.Unknown now).1.pod_id = s.pod_id := by
  have h := applyPolicy_preserves_other_fields
    (assimilate { s with last_updated_ms := now } RemoteObservation.Unknown).1 now
  exact h.1

/-- Example state used to refute claim C3: a pod id is known, the target is
Running, but there has never been a successful observation. -/
def cxStateC3 : RunPodState :=
  { format_version := 1, pod_name := "halldyll", pod_id := some (PodId.mk "p1"),
    target := TargetStatus.Running, last_remote := none, last_updated_ms := 0,
    policy := StatePolicy.default }

/-- C3 counterexample: with `pod_id = Some p1`, `target = Running` and no
prior snapshot, `reconcile(Unknown)` returns `CreatePod` (the effective status
is absent, so the Create row fires). -/
theorem unknown_returns_create_cx :
    cxStateC3.pod_id = some (PodId.mk "p1") ∧
    cxStateC3.target = TargetStatus.Running ∧
    (reconcile cxStateC3 RemoteObservation.Unknown 7).2 = PlannedAction.CreatePod "halldyll" :=
  ⟨rfl, rfl, rfl⟩

/-- C3 amended: `reconcile(Unknown)` always leaves `pod_id` unchanged, and it
never returns `CreatePod` provided the last snapshot exists with status
Running, or status Exited together with `reuse_exited_pod = true`. -/
theorem unknown_preserves_pod_id_no_create (s : RunPodState) (x : PodId) (now : Nat)
    (hid : s.pod_id = some x) (ht : s.target = TargetStatus.Running) :
    (reconcile s RemoteObservation.Unknown now).1.pod_id = some x ∧
    (∀ snap, s.last_remote = some snap →
      (snap.desired_status = PodDesiredStatus.Running ∨
        (snap.desired_status = PodDesiredStatus.Exited ∧ s.policy.reuse_exited_pod = true)) →
      ∀ name, (reconcile s RemoteObservation.Unknown now).2 ≠ PlannedAction.CreatePod name) := by
  refine ⟨(reconcile_unknown_pod_id s now).trans hid, ?_⟩
  intro snap hsnap hcase name
  obtain ⟨fv, pn, pid, tgt, lr, lu, reuse, auto⟩ := s
  simp only at hid ht hsnap hcase
  subst hid ht hsnap
  rcases hcase with hstat | ⟨hstat, hreuse⟩
  · rcases auto with _ | pm <;>
      simp [reconcile, assimilate, applyPolicy, decideAction, hstat] <;>
      split_ifs <;>
      simp_all [decideAction]
  · subst hreuse
    rcases auto with _ | pm <;>
      simp [reconcile, assimilate, applyPolicy, decideAction, hstat] <;>
      split_ifs <;>
      simp_all [decideAction]

/-- C3 amended, witness. -/
theorem unknown_preserves_pod_id_no_create_witness :
    (reconcile cxStateC3 RemoteObservation.Unknown 7).1.pod_id = some (PodId.mk "p1") ∧
    (∀ snap, cxStateC3.last_remote = some snap →
      (snap.desired_status = PodDesiredStatus.Running ∨
        (snap.desired_status = PodDesiredStatus.Exited ∧
          cxStateC3.policy.reuse_exited_pod = true)) →
      ∀ name, (reconcile cxStateC3 RemoteObservation.Unknown 7).2 ≠
        PlannedAction.CreatePod name) :=
  unknown_preserves_pod_id_no_create cxStateC3 (PodId.mk "p1") 7 rfl rfl

/-- Helper: when its guard holds, `applyPolicy` forces the target to
Terminated. -/
lemma applyPolicy_forces_terminated (s : RunPodState) (now pm : Nat) (r : RemotePodSnapshot)
    (hp : s.policy.auto_terminate_after_exited_ms = some pm) (hr : s.last_remote = some r)
    (hs : r.desired_status = PodDesiredStatus.Exited) (he : pm ≤ now - r.observed_at_ms) :
    (applyPolicy s now).target = TargetStatus.Terminated := by
  simp [applyPolicy, hp, hr, hs, he]

/-- C4: the auto-terminate policy override.  Generally, whenever the resulting
state carries `auto_terminate_after_exited_ms = some th` and a last snapshot
with status Exited whose age (saturating) is at least `th`, the resulting
target is Terminated; and in the spec's concrete scenario
(`observed_at_ms = 1000`, threshold 5000, `reconcile(Unknown, 6001)`) the
planner returns `TerminatePod id`. -/
theorem auto_terminate_policy_override :
    (∀ (s : RunPodState) (obs : RemoteObservation) (now th : Nat)
        (snap : RemotePodSnapshot),
      (reconcile s obs now).1.policy.auto_terminate_after_exited_ms = some th →
      (reconcile s obs now).1.last_remote = some snap →
      snap.desired_status = PodDesiredStatus.Exited →
      th ≤ now - snap.observed_at_ms →
      (reconcile s obs now).1.target = TargetStatus.Terminated) ∧
    (∀ (s : RunPodState) (id : PodId) (snap : RemotePodSnapshot),
      s.pod_id = some id → s.target = TargetStatus.Running →
      s.last_remote = some snap →
      snap.desired_status = PodDesiredStatus.Exited → snap.observed_at_ms = 1000 →
      s.policy.auto_terminate_after_exited_ms = some 5000 →
      (reconcile s RemoteObservation.Unknown 6001).1.target = TargetStatus.Terminated ∧
      (reconcile s RemoteObservation.Unknown 6001).2 = PlannedAction.TerminatePod id) := by
  constructor
  · intro s obs now th snap hp hr hs he
    have hpol := (applyPolicy_preserves_name_policy
      (assimilate { s with last_updated_ms := now } obs).1 now).2
    have hrem := (applyPolicy_preserves_other_fields
      (assimilate { s with last_updated_ms := now } obs).1 now).2.1
    show (applyPolicy _ _).target = _
    refine applyPolicy_forces_terminated _ _ _ snap ?_ ?_ hs he
    · rw [← hpol]; exact hp
    · rw [← hrem]; exact hr
  · intro s id snap hid ht hr hs hobs hp
    obtain ⟨fv, pn, pid, tgt, lr, lu, pol⟩ := s
    obtain ⟨reuse, auto⟩ := pol
    simp only at hid ht hr hp
    subst hid ht hr hp
    simp [reconcile, assimilate, applyPolicy, decideAction, hs, hobs]

/-- Example snapshot for the C4 scenario. -/
def cxSnapC4 : RemotePodSnapshot :=
  { id := PodId.mk "p1", name := "halldyll", desired_status := PodDesiredStatus.Exited,
    observed_at_ms := 1000 }

/-- Example state for the C4 scenario. -/
def cxStateC4 : RunPodState :=
  { format_version := 1, pod_name := "halldyll", pod_id := some (PodId.mk "p1"),
    target := TargetStatus.Running, last_remote := some cxSnapC4, last_updated_ms := 0,
    policy := { reuse_exited_pod := true, auto_terminate_after_exited_ms := some 5000 } }

/-- C4 witness. -/
theorem auto_terminate_policy_override_witness :
    (reconcile cxStateC4 RemoteObservation.Unknown 6001).1.target = TargetStatus.Terminated ∧
    (reconcile cxStateC4 RemoteObservation.Unknown 6001).2 =
      PlannedAction.TerminatePod (PodId.mk "p1") :=
  auto_terminate_policy_override.2 cxStateC4 (PodId.mk "p1") cxSnapC4 rfl rfl rfl rfl rfl rfl

/-- Observed-equivalent target status for a remote status (the steady-state
pairing of the spec's idempotence property). -/
def targetFor : PodDesiredStatus → TargetStatus
  | PodDesiredStatus.Running => TargetStatus.Running
  | PodDesiredStatus.Exited => TargetStatus.Exited
  | PodDesiredStatus.Terminated => TargetStatus.Terminated

/-- Example snapshot used to refute claim C5. -/
def cxSnapC5 : RemotePodSnapshot :=
  { id := PodId.mk "p1", name := "halldyll", desired_status := PodDesiredStatus.Exited,
    observed_at_ms := 0 }

/-- Example steady state (target Exited, observed Exited) used to refute
claim C5; the auto-terminate threshold is 0. -/
def cxStateC5 : RunPodState :=
  { format_version := 1, pod_name := "halldyll", pod_id := some (PodId.mk "p1"),
    target := TargetStatus.Exited, last_remote := some cxSnapC5, last_updated_ms := 0,
    policy := { reuse_exited_pod := true, auto_terminate_after_exited_ms := some 0 } }

/-- C5 counterexample: in the steady pair (target Exited, observed Exited),
`reconcile(Found)` returns `TerminatePod` rather than `Noop` when the
auto-terminate override fires. -/
theorem steady_state_override_cx :
    cxStateC5.target = targetFor cxSnapC5.desired_status ∧
    (reconcile cxStateC5 (RemoteObservation.Found cxSnapC5) 0).2 =
      PlannedAction.TerminatePod (PodId.mk "p1") ∧
    PlannedAction.TerminatePod (PodId.mk "p1") ≠ PlannedAction.Noop :=
  ⟨rfl, rfl, by simp⟩

/-- Helper: a single steady-state `reconcile(Found)` call yields `Noop` and
only installs the snapshot, provided the auto-terminate override does not
fire. -/
lemma steady_found_noop (s : RunPodState) (snap : RemotePodSnapshot) (now : Nat)
    (ht : s.target = targetFor snap.desired_status)
    (hov : snap.desired_status = PodDesiredStatus.Exited →
      ∀ th, s.policy.auto_terminate_after_exited_ms = some th →
        now - snap.observed_at_ms < th) :
    reconcile s (RemoteObservation.Found snap) now =
      ({ s with pod_id := some snap.id, last_remote := some snap, last_updated_ms := now },
       PlannedAction.Noop) := by
  obtain ⟨fv, pn, pid, tgt, lr, lu, reuse, auto⟩ := s
  simp only at ht hov
  subst ht
  rcases hs : snap.desired_status with _ | _ | _
  · rcases auto with _ | pm <;>
      simp [reconcile, assimilate, applyPolicy, decideAction, targetFor, hs]
  · rcases auto with _ | pm
    · simp [reconcile, assimilate, applyPolicy, decideAction, targetFor, hs]
    · have hlt := hov hs pm rfl
      simp [reconcile, assimilate, applyPolicy, decideAction, targetFor, hs]
      refine ⟨hlt, ?_⟩
      simp only [if_neg (show ¬ (pm ≤ now - snap.observed_at_ms) by omega)]
  · rcases auto with _ | pm <;>
      simp [reconcile, assimilate, applyPolicy, decideAction, targetFor, hs]

/-- C5 amended: for any steady-state pair in which the auto-terminate override
does not fire, `reconcile(Found snap)` returns `Noop` and changes the state
only by installing the snapshot (id, `last_remote`) and the call timestamp;
the repeated call returns `Noop` again and leaves the state fixed. -/
theorem steady_state_noop_idempotent (s : RunPodState) (snap : RemotePodSnapshot) (now : Nat)
    (ht : s.target = targetFor snap.desired_status)
    (hov : snap.desired_status = PodDesiredStatus.Exited →
      ∀ th, s.policy.auto_terminate_after_exited_ms = some th →
        now - snap.observed_at_ms < th) :
    reconcile s (RemoteObservation.Found snap) now =
      ({ s with pod_id := some snap.id, last_remote := some snap, last_updated_ms := now },
       PlannedAction.Noop) ∧
    reconcile
        { s with pod_id := some snap.id, last_remote := some snap, last_updated_ms := now }
        (RemoteObservation.Found snap) now =
      ({ s with pod_id := some snap.id, last_remote := some snap, last_updated_ms := now },
       PlannedAction.Noop) :=
  ⟨steady_found_noop s snap now ht hov,
   steady_found_noop
     { s with pod_id := some snap.id, last_remote := some snap, last_updated_ms := now }
     snap now ht hov⟩

/-- Example snapshot for the C5 witness (status Running, no override). -/
def cxSnapC5w : RemotePodSnapshot :=
  { id := PodId.mk "p1", name := "halldyll", desired_status := PodDesiredStatus.Running,
    observed_at_ms := 3 }

/-- Example state for the C5 witness. -/
def cxStateC5w : RunPodState :=
  { format_version := 1, pod_name := "halldyll", pod_id := none,
    target := TargetStatus.Running, last_remote := none, last_updated_ms := 0,
    policy := StatePolicy.default }

/-- C5 amended, witness. -/
theorem steady_state_noop_idempotent_witness :
    reconcile cxStateC5w (RemoteObservation.Found cxSnapC5w) 9 =
      ({ cxStateC5w with pod_id := some cxSnapC5w.id, last_remote := some cxSnapC5w,
                         last_updated_ms := 9 }, PlannedAction.Noop) ∧
    reconcile
        { cxStateC5w with pod_id := some cxSnapC5w.id, last_remote := some cxSnapC5w,
                          last_updated_ms := 9 }
        (RemoteObservation.Found cxSnapC5w) 9 =
      ({ cxStateC5w with pod_id := some cxSnapC5w.id, last_remote := some cxSnapC5w,
                         last_updated_ms := 9 }, PlannedAction.Noop) :=
  steady_state_noop_idempotent cxStateC5w cxSnapC5w 9 rfl
    (by intro h; exact absurd h (by simp [cxSnapC5w]))

/-- Invariant of claim C9: a remembered snapshot implies a remembered id. -/
def idInvariant (s : RunPodState) : Prop := s.last_remote.isSome → s.pod_id.isSome

/-- States reachable from `RunPodState::new` through the public mutators. -/
inductive Reachable : RunPodState → Prop
  | new_state (pod_name : String) (now_ms : Nat) : Reachable (RunPodState.new pod_name now_ms)
  | reconcile_step {s : RunPodState} (obs : RemoteObservation) (now : Nat) :
      Reachable s → Reachable (reconcile s obs now).1
  | set_target_step {s : RunPodState} (t : TargetStatus) (now : Nat) :
      Reachable s → Reachable (s.set_target t now)
  | apply_created_step {s : RunPodState} (id : PodId) (now : Nat) :
      Reachable s → Reachable (s.apply_created id now)
  | apply_terminated_step {s : RunPodState} (now : Nat) :
      Reachable s → Reachable (s.apply_terminated now)

/-- Helper: `reconcile` preserves the id invariant. -/
lemma reconcile_preserves_idInvariant (s : RunPodState) (obs : RemoteObservation) (now : Nat)
    (h : idInvariant s) : idInvariant (reconcile s obs now).1 := by
  have hfields := applyPolicy_preserves_other_fields
    (assimilate { s with last_updated_ms := now } obs).1 now
  show idInvariant (applyPolicy _ _)
  unfold idInvariant
  rw [hfields.1, hfields.2.1]
  rcases obs with snap | _ | _
  · simp [assimilate]
  · simp [assimilate]
  · exact h

/-- Helper: under the id invariant, the decision triple never pairs a present
effective status with an absent id, so the defensive Create row cannot be
selected. -/
lemma no_defensive_row (s : RunPodState) (h : idInvariant s) (obs : RemoteObservation)
    (now : Nat) :
    ¬((reconcileTriple s obs now).2.1.isSome ∧ (reconcileTriple s obs now).2.2 = none) := by
  have hfields := applyPolicy_preserves_other_fields
    (assimilate { s with last_updated_ms := now } obs).1 now
  rintro ⟨h1, h2⟩
  rw [show (reconcileTriple s obs now).2.2 =
    (applyPolicy (assimilate { s with last_updated_ms := now } obs).1 now).pod_id from rfl,
    hfields.1] at h2
  rcases obs with snap | _ | _
  · simp [assimilate] at h2
  · simp [reconcileTriple, assimilate] at h1
  · have h1' : s.last_remote.isSome := by
      have : (reconcileTriple s RemoteObservation.Unknown now).2.1 =
          s.last_remote.map (fun r => r.desired_status) := rfl
      rw [this] at h1
      rcases hlr : s.last_remote with _ | r
      · rw [hlr] at h1; simp at h1
      · simp
    have h2' : s.pod_id = none := h2
    have := h h1'
    rw [h2'] at this
    simp at this

/-- C9: every state reachable through `new`, `reconcile`, `set_target`,
`apply_created`, `apply_terminated` satisfies `last_remote.isSome →
pod_id.isSome`, and consequently the defensive Create row (status present, id
absent) never fires on reachable states. -/
theorem reachable_lastRemote_implies_podId :
    ∀ s : RunPodState, Reachable s →
      idInvariant s ∧
      ∀ (obs : RemoteObservation) (now : Nat),
        ¬((reconcileTriple s obs now).2.1.isSome ∧
          (reconcileTriple s obs now).2.2 = none) := by
  intro s hr
  have hinv : idInvariant s := by
    induction hr with
    | new_state pod_name now_ms => intro h; simp [RunPodState.new] at h
    | reconcile_step obs now _ ih => exact reconcile_preserves_idInvariant _ obs now ih
    | set_target_step t now _ ih => exact ih
    | apply_created_step id now _ ih => intro _; simp [RunPodState.apply_created]
    | apply_terminated_step now _ ih => intro h; simp [RunPodState.apply_terminated] at h
  exact ⟨hinv, fun obs now => no_defensive_row s hinv obs now⟩

/-- C9 witness. -/
theorem reachable_lastRemote_implies_podId_witness :
    idInvariant (RunPodState.new "halldyll" 0) ∧
    ¬((reconcileTriple (RunPodState.new "halldyll" 0) RemoteObservation.NotFound 1).2.1.isSome ∧
      (reconcileTriple (RunPodState.new "halldyll" 0) RemoteObservation.NotFound 1).2.2 =
        none) :=
  ⟨(reachable_lastRemote_implies_podId _ (Reachable.new_state "halldyll" 0)).1,
   (reachable_lastRemote_implies_podId _ (Reachable.new_state "halldyll" 0)).2
     RemoteObservation.NotFound 1⟩

/-- JSON value tree, the level at which `serde_json` round-trips are modelled
(all numeric fields of the state are unsigned, hence `Nat`). -/
inductive Json
  | null
  | bool (b : Bool)
  | num (n : Nat)
  | str (s : String)
  | arr (xs : List Json)
  | obj (fields : List (String × Json))

/-- Serialize a `PodId` (serde newtype struct: just the inner string). -/
def PodId.toJson (p : PodId) : Json := Json.str p.raw

/-- Serialize a `PodDesiredStatus` (SCREAMING_SNAKE_CASE rename). -/
def PodDesiredStatus.toJson : PodDesiredStatus → Json
  | PodDesiredStatus.Running => Json.str "RUNNING"
  | PodDesiredStatus.Exited => Json.str "EXITED"
  | PodDesiredStatus.Terminated => Json.str "TERMINATED"

/-- Serialize a `TargetStatus` (SCREAMING_SNAKE_CASE rename). -/
def TargetStatus.toJson : TargetStatus → Json
  | TargetStatus.Running => Json.str "RUNNING"
  | TargetStatus.Exited => Json.str "EXITED"
  | TargetStatus.Terminated => Json.str "TERMINATED"

/-- Serialize an `Option` (serde: `None` becomes `null`). -/
def optionToJson (f : α → Json) : Option α → Json
  | none => Json.null
  | some a => f a

/-- Serialize a `RemotePodSnapshot` (derived field order). -/
def RemotePodSnapshot.toJson (r : RemotePodSnapshot) : Json :=
  Json.obj [("id", r.id.toJson), ("name", Json.str r.name),
    ("desired_status", r.desired_status.toJson), ("observed_at_ms", Json.num r.observed_at_ms)]

/-- Serialize a `StatePolicy`. -/
def StatePolicy.toJson (p : StatePolicy) : Json :=
  Json.obj [("reuse_exited_pod", Json.bool p.reuse_exited_pod),
    ("auto_terminate_after_exited_ms", optionToJson Json.num p.auto_terminate_after_exited_ms)]

/-- Serialize a `RunPodState` (derived field order). -/
def RunPodState.toJson (s : RunPodState) : Json :=
  Json.obj [("format_version", Json.num s.format_version), ("pod_name", Json.str s.pod_name),
    ("pod_id", optionToJson PodId.toJson s.pod_id), ("target", s.target.toJson),
    ("last_remote", optionToJson RemotePodSnapshot.toJson s.last_remote),
    ("last_updated_ms", Json.num s.last_updated_ms), ("policy", s.policy.toJson)]

/-- Look up an object field by name. -/
def Json.getField : Json → String → Option Json
  | Json.obj fields, k => fields.lookup k
  | _, _ => none

/-- Expect a JSON string. -/
def Json.asStr : Json → Option String
  | Json.str s => some s
  | _ => none

/-- Expect a JSON number. -/
def Json.asNum : Json → Option Nat
  | Json.num n => some n
  | _ => none

/-- Expect a JSON boolean. -/
def Json.asBool : Json → Option Bool
  | Json.bool b => some b
  | _ => none

/-- Deserialize an `Option` (serde: `null` is `None`). -/
def decodeOption (f : Json → Option α) : Json → Option (Option α)
  | Json.null => some none
  | j => (f j).map some

/-- Deserialize a `PodDesiredStatus`. -/
def PodDesiredStatus.fromJson (j : Json) : Option PodDesiredStatus :=
  match j with
  | Json.str "RUNNING" => some PodDesiredStatus.Running
  | Json.str "EXITED" => some PodDesiredStatus.Exited
  | Json.str "TERMINATED" => some PodDesiredStatus.Terminated
  | _ => none

/-- Deserialize a `TargetStatus`. -/
def TargetStatus.fromJson (j : Json) : Option TargetStatus :=
  match j with
  | Json.str "RUNNING" => some TargetStatus.Running
  | Json.str "EXITED" => some TargetStatus.Exited
  | Json.str "TERMINATED" => some TargetStatus.Terminated
  | _ => none

/-- Deserialize a `RemotePodSnapshot`. -/
def RemotePodSnapshot.fromJson (j : Json) : Option RemotePodSnapshot := do
  let id ← (← j.getField "id").asStr
  let name ← (← j.getField "name").asStr
  let ds ← PodDesiredStatus.fromJson (← j.getField "desired_status")
  let obs ← (← j.getField "observed_at_ms").asNum
  pure { id := PodId.mk id, name := name, desired_status := ds, observed_at_ms := obs }

/-- Deserialize a `StatePolicy`. -/
def StatePolicy.fromJson (j : Json) : Option StatePolicy := do
  let reuse ← (← j.getField "reuse_exited_pod").asBool
  let auto ← decodeOption Json.asNum (← j.getField "auto_terminate_after_exited_ms")
  pure { reuse_exited_pod := reuse, auto_terminate_after_exited_ms := auto }

/-- Deserialize a `RunPodState`. -/
def RunPodState.fromJson (j : Json) : Option RunPodState := do
  let fv ← (← j.getField "format_version").asNum
  let pn ← (← j.getField "pod_name").asStr
  let pid ← decodeOption (fun x => (Json.asStr x).map PodId.mk) (← j.getField "pod_id")
  let tgt ← TargetStatus.fromJson (← j.getField "target")
  let lr ← decodeOption RemotePodSnapshot.fromJson (← j.getField "last_remote")
  let lu ← (← j.getField "last_updated_ms").asNum
  let pol ← StatePolicy.fromJson (← j.getField "policy")
  pure { format_version := fv, pod_name := pn, pod_id := pid, target := tgt,
         last_remote := lr, last_updated_ms := lu, policy := pol }

/-- Helper: deserializing a serialized state gives the state back,
field-for-field. -/
lemma fromJson_toJson (s : RunPodState) : RunPodState.fromJson (RunPodState.toJson s) = some s := by
  obtain ⟨fv, pn, pid, tgt, lr, lu, reuse, auto⟩ := s
  rcases pid with _ | ⟨pidraw⟩ <;>
    rcases lr with _ | ⟨⟨lrid⟩, lrname, lrds, lrobs⟩ <;>
    rcases auto with _ | pm <;>
    cases tgt <;>
    (try cases lrds) <;>
    rfl

/-- Blankness check used by the store validations: `pod_name.trim().is_empty()`
holds exactly when every character of the name is whitespace. -/
def isBlank (s : String) : Bool := s.toList.all Char.isWhitespace

/-- Content of a file slot in the crash model: either a fully written JSON
document or a torn (incomplete) write. -/
inductive FileContent
  | corrupt
  | complete (j : Json)

/-- File-system model for the store: the canonical path and its temp sibling. -/
structure FS where
  canonical : Option FileContent
  tmp : Option FileContent

/-- Store errors (`StateStoreError`). -/
inductive StateStoreError
  | ioErr
  | serdeErr
  | invalidState (msg : String)
deriving DecidableEq, Repr

/-- Load (`JsonFileStateStore::load`): absent file is first run; a torn or
non-deserializable file is a serde error; then version and name validation. -/
def load (fs : FS) : Except StateStoreError (Option RunPodState) :=
  match fs.canonical with
  | none => Except.ok none
  | some FileContent.corrupt => Except.error StateStoreError.serdeErr
  | some (FileContent.complete j) =>
    match RunPodState.fromJson j with
    | none => Except.error StateStoreError.serdeErr
    | some st =>
      if st.format_version ≠ STATE_FORMAT_VERSION then
        Except.error (StateStoreError.invalidState "unsupported state format version")
      else if isBlank st.pod_name = true then
        Except.error (StateStoreError.invalidState "pod_name is empty")
      else Except.ok (some st)

/-- Save (`JsonFileStateStore::save`), final result: validate, then the
write-temp / fsync / remove-old / rename sequence ends with the new document
at the canonical path and no temp file. -/
def save (fs : FS) (s : RunPodState) : Except StateStoreError FS :=
  if s.format_version ≠ STATE_FORMAT_VERSION then
    Except.error (StateStoreError.invalidState "wrong state format version")
  else if isBlank s.pod_name = true then
    Except.error (StateStoreError.invalidState "pod_name is empty")
  else
    Except.ok { canonical := some (FileContent.complete (RunPodState.toJson s)), tmp := none }

/-- Save, crash model: the list of file-system states the call passes through
(initial, mid-temp-write, temp written and fsynced, old canonical removed when
it existed, renamed) together with the returned error, if any.  Validation
failures happen before any file-system step. -/
def saveTrace (fs : FS) (s : RunPodState) : List FS × Option StateStoreError :=
  if s.format_version ≠ STATE_FORMAT_VERSION then
    ([fs], some (StateStoreError.invalidState "wrong state format version"))
  else if isBlank s.pod_name = true then
    ([fs], some (StateStoreError.invalidState "pod_name is empty"))
  else
    let written : FS :=
      { canonical := fs.canonical, tmp := some (FileContent.complete (RunPodState.toJson s)) }
    let removed : FS := if fs.canonical.isSome then { written with canonical := none } else written
    ([fs, { fs with tmp := some FileContent.corrupt }, written, removed,
      { canonical := some (FileContent.complete (RunPodState.toJson s)), tmp := none }], none)

/-- Example state used to refute claim C6: the logical name " " is non-empty
yet blank, so save refuses it. -/
def cxStateC6 : RunPodState :=
  { format_version := 1, pod_name := " ", pod_id := none,
    target := TargetStatus.Running, last_remote := none, last_updated_ms := 0,
    policy := StatePolicy.default }

/-- Empty file-system (no record saved yet). -/
def fsEmpty : FS := { canonical := none, tmp := none }

/-- C6 counterexample: a state whose name is non-empty (a single space) and
whose version matches still fails `save` with a validation error, so
`save(s); load()` does not return `Some(s)` (the store still holds nothing). -/
theorem roundtrip_whitespace_name_cx :
    cxStateC6.format_version = STATE_FORMAT_VERSION ∧
    cxStateC6.pod_name ≠ "" ∧
    save fsEmpty cxStateC6 = Except.error (StateStoreError.invalidState "pod_name is empty") ∧
    load fsEmpty = Except.ok none ∧
    (none : Option RunPodState) ≠ some cxStateC6 :=
  ⟨rfl, by decide, rfl, rfl, by simp⟩

/-- C6 amended: for every state whose `format_version` matches the engine
constant and whose name is non-blank after trimming, `save` succeeds and a
subsequent `load` returns exactly the saved state, every field included. -/
theorem save_load_roundtrip (fs : FS) (s : RunPodState)
    (h1 : s.format_version = STATE_FORMAT_VERSION) (h2 : isBlank s.pod_name = false) :
    save fs s =
      Except.ok { canonical := some (FileContent.complete (RunPodState.toJson s)), tmp := none } ∧
    load { canonical := some (FileContent.complete (RunPodState.toJson s)), tmp := none } =
      Except.ok (some s) := by
  constructor
  · simp [save, h1, h2]
  · simp [load, fromJson_toJson, h1, h2]

/-- Example valid state for store witnesses. -/
def cxStateStore : RunPodState :=
  { format_version := 1, pod_name := "halldyll", pod_id := some (PodId.mk "p1"),
    target := TargetStatus.Exited,
    last_remote := some { id := PodId.mk "p1", name := "halldyll",
                          desired_status := PodDesiredStatus.Exited, observed_at_ms := 42 },
    last_updated_ms := 7,
    policy := { reuse_exited_pod := false, auto_terminate_after_exited_ms := some 9 } }

/-- C6 amended, witness. -/
theorem save_load_roundtrip_witness :
    save fsEmpty cxStateStore =
      Except.ok { canonical := some (FileContent.complete (RunPodState.toJson cxStateStore)),
                  tmp := none } ∧
    load { canonical := some (FileContent.complete (RunPodState.toJson cxStateStore)),
           tmp := none } =
      Except.ok (some cxStateStore) :=
  save_load_roundtrip fsEmpty cxStateStore rfl (by decide)

/-- Example old state on disk for the C7 counterexample. -/
def cxOldState : RunPodState :=
  { format_version := 1, pod_name := "halldyll", pod_id := some (PodId.mk "old"),
    target := TargetStatus.Running, last_remote := none, last_updated_ms := 1,
    policy := StatePolicy.default }

/-- Example new state being saved in the C7 counterexample. -/
def cxNewState : RunPodState :=
  { format_version := 1, pod_name := "halldyll", pod_id := some (PodId.mk "new"),
    target := TargetStatus.Running, last_remote := none, last_updated_ms := 2,
    policy := StatePolicy.default }

/-- File-system before the interrupted save: the old state is on disk. -/
def cxFS0 : FS :=
  { canonical := some (FileContent.complete (RunPodState.toJson cxOldState)), tmp := none }

/-- File-system at the crash point between remove-old and rename. -/
def cxCrashFS : FS :=
  { canonical := none, tmp := some (FileContent.complete (RunPodState.toJson cxNewState)) }

/-- C7 counterexample: a crash between the removal of the pre-existing target
and the rename leaves no file at the canonical path, so `load` returns `None`
rather than the pre-write state. -/
theorem crash_window_no_file_cx :
    load cxFS0 = Except.ok (some cxOldState) ∧
    ((saveTrace cxFS0 cxNewState).1)[3]? = some cxCrashFS ∧
    cxCrashFS.canonical = none ∧
    load cxCrashFS = Except.ok none ∧
    (Except.ok (none : Option RunPodState) ≠
      (Except.ok (some cxOldState) : Except StateStoreError (Option RunPodState))) :=
  ⟨rfl, rfl, rfl, rfl, by simp⟩

/-- C7 amended: at every prefix of the save step sequence for a valid state,
the canonical path holds either the complete old content, the complete new
document, or no file at all (the window between remove and rename); it never
holds a torn write if it did not hold one before. -/
theorem crash_leaves_old_new_or_none (fs : FS) (s : RunPodState)
    (h1 : s.format_version = STATE_FORMAT_VERSION) (h2 : isBlank s.pod_name = false) :
    ∀ fsi ∈ (saveTrace fs s).1,
      (fsi.canonical = fs.canonical ∨ fsi.canonical = none ∨
        fsi.canonical = some (FileContent.complete (RunPodState.toJson s))) ∧
      (fs.canonical ≠ some FileContent.corrupt →
        fsi.canonical ≠ some FileContent.corrupt) := by
  intro fsi hmem
  rw [show (saveTrace fs s).1 =
      [fs, { fs with tmp := some FileContent.corrupt },
       { canonical := fs.canonical, tmp := some (FileContent.complete (RunPodState.toJson s)) },
       (if fs.canonical.isSome then
          { canonical := none, tmp := some (FileContent.complete (RunPodState.toJson s)) }
        else
          { canonical := fs.canonical,
            tmp := some (FileContent.complete (RunPodState.toJson s)) }),
       { canonical := some (FileContent.complete (RunPodState.toJson s)), tmp := none }]
    from by simp [saveTrace, h1, h2]] at hmem
  simp only [List.mem_cons, List.not_mem_nil, or_false] at hmem
  rcases hmem with h | h | h | h | h
  · subst h; simp
  · subst h; simp
  · subst h; simp
  · subst h
    rcases hcan : fs.canonical with _ | c <;> simp [hcan]
  · subst h; simp

/-- C7 amended, witness. -/
theorem crash_leaves_old_new_or_none_witness :
    (cxCrashFS.canonical = cxFS0.canonical ∨ cxCrashFS.canonical = none ∨
      cxCrashFS.canonical = some (FileContent.complete (RunPodState.toJson cxNewState))) ∧
    (cxFS0.canonical ≠ some FileContent.corrupt →
      cxCrashFS.canonical ≠ some FileContent.corrupt) :=
  crash_leaves_old_new_or_none cxFS0 cxNewState rfl (by decide)
    cxCrashFS
    (List.get?_mem (show (saveTrace cxFS0 cxNewState).1.get? 3 = some cxCrashFS from rfl))

/-- Example state used to refute claim C8: its name " " is non-empty, its
version matches, and it deserializes cleanly, yet `load` rejects it. -/
def cxStateC8 : RunPodState :=
  { format_version := 1, pod_name := " ", pod_id := none,
    target := TargetStatus.Running, last_remote := none, last_updated_ms := 0,
    policy := StatePolicy.default }

/-- File-system holding the serialized blank-named state for the C8
counterexample. -/
def cxBlankFS : FS :=
  { canonical := some (FileContent.complete (RunPodState.toJson cxStateC8)), tmp := none }

/-- C8 counterexample: a stored record that parses, has the matching format
version and a non-empty logical name still makes `load` return a validation
error, because the check is `pod_name.trim().is_empty()` — so "an error
exactly when parsing fails, the version differs, or the name is empty" is
false as stated. -/
theorem load_blank_name_errors_cx :
    RunPodState.fromJson (RunPodState.toJson cxStateC8) = some cxStateC8 ∧
    cxStateC8.format_version = STATE_FORMAT_VERSION ∧
    cxStateC8.pod_name ≠ "" ∧
    load cxBlankFS = Except.error (StateStoreError.invalidState "pod_name is empty") :=
  ⟨rfl, rfl, by decide, rfl⟩

/-- C8 amended: `load` returns `None` exactly when no record exists; it
returns the stored state exactly when the document deserializes, the version
matches and the name is non-blank after trimming whitespace (never silently
migrating), and errors otherwise; `save` rejects the same two invariants with
an error before any file-system step (the trace is just the initial state),
and succeeds on valid input. -/
theorem load_save_validation :
    (∀ fs : FS, load fs = Except.ok none ↔ fs.canonical = none) ∧
    (∀ (fs : FS) (j : Json) (st : RunPodState),
      fs.canonical = some (FileContent.complete j) → RunPodState.fromJson j = some st →
      st.format_version = STATE_FORMAT_VERSION → isBlank st.pod_name = false →
      load fs = Except.ok (some st)) ∧
    (∀ (fs : FS) (st : RunPodState), load fs = Except.ok (some st) →
      (∃ j, fs.canonical = some (FileContent.complete j) ∧
        RunPodState.fromJson j = some st) ∧
      st.format_version = STATE_FORMAT_VERSION ∧ isBlank st.pod_name = false) ∧
    (∀ (fs : FS) (s : RunPodState),
      (s.format_version ≠ STATE_FORMAT_VERSION ∨ isBlank s.pod_name = true) →
      ∃ e, save fs s = Except.error e ∧ saveTrace fs s = ([fs], some e)) ∧
    (∀ (fs : FS) (s : RunPodState),
      s.format_version = STATE_FORMAT_VERSION → isBlank s.pod_name = false →
      ∃ fs', save fs s = Except.ok fs') := by
  refine ⟨?_, ?_, ?_, ?_, ?_⟩
  · intro fs
    obtain ⟨can, tmp⟩ := fs
    rcases can with _ | (_ | j)
    · simp [load]
    · simp [load]
    · rcases hj : RunPodState.fromJson j with _ | st
      · simp [load, hj]
      · simp [load, hj]
        split_ifs <;> simp
  · intro fs j st hcan hj h1 h2
    simp [load, hcan, hj, h1, h2]
  · intro fs st h
    obtain ⟨can, tmp⟩ := fs
    rcases can with _ | (_ | j)
    · simp [load] at h
    · simp [load] at h
    · rcases hj : RunPodState.fromJson j with _ | st'
      · simp [load, hj] at h
      · simp only [load, hj] at h
        split_ifs at h with hv hn <;> simp at h
        rw [← h]
        exact ⟨⟨j, rfl, hj⟩, by omega, by simpa using hn⟩
  · intro fs s h
    rcases h with h | h
    · exact ⟨StateStoreError.invalidState "wrong state format version",
        by simp [save, h], by simp [saveTrace, h]⟩
    · rcases eq_or_ne s.format_version STATE_FORMAT_VERSION with hv | hv
      · exact ⟨StateStoreError.invalidState "pod_name is empty",
          by simp [save, hv, h], by simp [saveTrace, hv, h]⟩
      · exact ⟨StateStoreError.invalidState "wrong state format version",
          by simp [save, hv], by simp [saveTrace, hv]⟩
  · intro fs s h1 h2
    exact ⟨{ canonical := some (FileContent.complete (RunPodState.toJson s)), tmp := none },
      by simp [save, h1, h2]⟩

/-- C8 witness. -/
theorem load_save_validation_witness :
    (load fsEmpty = Except.ok none ↔ fsEmpty.canonical = none) ∧
    load cxFS0 = Except.ok (some cxOldState) ∧
    (∃ e, save fsEmpty cxStateC6 = Except.error e ∧
      saveTrace fsEmpty cxStateC6 = ([fsEmpty], some e)) ∧
    (∃ fs', save fsEmpty cxStateStore = Except.ok fs') :=
  ⟨load_save_validation.1 fsEmpty,
   load_save_validation.2.1 cxFS0 (RunPodState.toJson cxOldState) cxOldState rfl
     (fromJson_toJson cxOldState) rfl (by decide),
   load_save_validation.2.2.2.1 fsEmpty cxStateC6 (Or.inr (by decide)),
   load_save_validation.2.2.2.2 fsEmpty cxStateStore rfl (by decide)⟩

/-- Detailed pod information fetched by the orchestrator (`PodDetails` in
`runpod_orchestrator.rs`); `portMappings` maps container-port strings to
public ports. -/
structure PodDetails where
  id : String
  name : Option String
  desiredStatus : Option String
  imageName : Option String
  publicIp : Option String
  portMappings : Option (List (String × Nat))
  ports : Option (List String)
deriving DecidableEq, Repr

/-- Handle to a running pod (`PodLease`). -/
structure PodLease where
  id : String
  name : String
  public_ip : String
  port_mappings : List (Nat × Nat)
  desired_status : String
deriving DecidableEq, Repr

/-- Rust `str::parse::<u16>` on a character list: an optional leading plus
sign, then at least one decimal digit, value at most 65535. -/
def parseU16Chars (cs0 : List Char) : Option Nat :=
  let cs :=
    match cs0 with
    | '+' :: rest => rest
    | cs => cs
  if cs ≠ [] ∧ cs.all Char.isDigit then
    let n := cs.foldl (fun acc c => acc * 10 + (c.toNat - '0'.toNat)) 0
    if n ≤ 65535 then some n else none
  else none

/-- Insert into the `container port -> public port` map (`HashMap::insert`:
replace an existing key, else append). -/
def insertMapping (m : List (Nat × Nat)) (k v : Nat) : List (Nat × Nat) :=
  if m.any (fun p => p.1 == k) then
    m.map (fun p => if p.1 == k then (k, v) else p)
  else m ++ [(k, v)]

/-- Build the numeric port map from the fetched `portMappings`, skipping keys
that do not parse as a `u16`. -/
def buildPortMappings (entries : List (String × Nat)) : List (Nat × Nat) :=
  entries.foldl
    (fun m e =>
      match parseU16Chars e.1.toList with
      | some k => insertMapping m k e.2
      | none => m)
    []

/-- Key-membership test for the port map. -/
def containsKey (m : List (Nat × Nat)) (k : Nat) : Bool :=
  m.any (fun p => p.1 == k)

/-- One required port specification is satisfied: the text before the first
slash parses as a `u16` that appears in the port map (`"22/tcp"` style). -/
def requiredPortOk (mappings : List (Nat × Nat)) (spec : String) : Bool :=
  match parseU16Chars (spec.toList.takeWhile (fun c => c != '/')) with
  | some port => containsKey mappings port
  | none => false

/-- Readiness predicate and lease construction, translated from the body of
`wait_for_ready`'s `if let Some(pod)` block: requires lifecycle status
RUNNING, a non-empty public address, and every required port mapped; on
success builds the `PodLease` exactly as the source does. -/
def leaseOf (required_ports : List String) (pod : PodDetails) : Option PodLease :=
  if pod.desiredStatus = some "RUNNING" then
    match pod.publicIp with
    | some ip =>
      if ip ≠ "" then
        if required_ports.all
            (fun spec => requiredPortOk (buildPortMappings (pod.portMappings.getD [])) spec) then
          some { id := pod.id, name := pod.name.getD "", public_ip := ip,
                 port_mappings := buildPortMappings (pod.portMappings.getD []),
                 desired_status := pod.desiredStatus.getD "" }
        else none
      else none
    | none => none
  else none

/-- Outcome of one `get_pod` fetch inside the polling loop. -/
inductive FetchOutcome
  | fetchErr
  | notFound
  | found (pod : PodDetails)

/-- Result of the polling loop. -/
inductive WaitOutcome
  | timedOut
  | podNotFound (id : String)
  | apiErr
  | lease (l : PodLease)

/-- Readiness poller (`RunpodOrchestrator::wait_for_ready`) over an explicit
sequence of fetch outcomes.  `elapsed` models `start.elapsed()` in
milliseconds and advances by `poll_interval_ms` per retry (fetches are
instantaneous in the model); `none` means the modelled fetch sequence ran out
while the loop would still be polling. -/
def waitForReady (required_ports : List String) (ready_timeout_ms poll_interval_ms : Nat)
    (pod_id : String) (fetches : List FetchOutcome) (elapsed : Nat) : Option WaitOutcome :=
  if elapsed > ready_timeout_ms then some WaitOutcome.timedOut
  else
    match fetches with
    | [] => none
    | FetchOutcome.fetchErr :: _ => some WaitOutcome.apiErr
    | FetchOutcome.notFound :: _ => some (WaitOutcome.podNotFound pod_id)
    | FetchOutcome.found pod :: rest =>
      match leaseOf required_ports pod with
      | some l => some (WaitOutcome.lease l)
      | none =>
        waitForReady required_ports ready_timeout_ms poll_interval_ms pod_id rest
          (elapsed + poll_interval_ms)

/-- Helper: what a successful `leaseOf` guarantees about the fetched detail. -/
lemma leaseOf_some (rp : List String) (pod : PodDetails) (l : PodLease)
    (h : leaseOf rp pod = some l) :
    pod.desiredStatus = some "RUNNING" ∧
    (∃ ip, pod.publicIp = some ip ∧ ip ≠ "" ∧ l.public_ip = ip) ∧
    rp.all (fun spec =>
      requiredPortOk (buildPortMappings (pod.portMappings.getD [])) spec) = true := by
  unfold leaseOf at h
  by_cases hstat : pod.desiredStatus = some "RUNNING"
  · rw [if_pos hstat] at h
    rcases hip : pod.publicIp with _ | ip
    · rw [hip] at h; simp at h
    · rw [hip] at h
      have h' : (if ip ≠ "" then
          (if (rp.all fun spec =>
              requiredPortOk (buildPortMappings (pod.portMappings.getD [])) spec) = true then
            some { id := pod.id, name := pod.name.getD "", public_ip := ip,
                   port_mappings := buildPortMappings (pod.portMappings.getD []),
                   desired_status := pod.desiredStatus.getD "" }
          else none)
        else none) = some l := h
      by_cases hne : ip ≠ ""
      · rw [if_pos hne] at h'
        by_cases hports : (rp.all fun spec =>
            requiredPortOk (buildPortMappings (pod.portMappings.getD [])) spec) = true
        · rw [if_pos hports] at h'
          simp only [Option.some.injEq] at h'
          refine ⟨hstat, ⟨ip, rfl, hne, ?_⟩, hports⟩
          rw [← h']
        · rw [if_neg hports] at h'; simp at h'
      · rw [if_neg hne] at h'; simp at h'
  · rw [if_neg hstat] at h; simp at h

/-- C10: the readiness poller fails immediately (without consuming further
fetches) with a pod-not-found error on a fetch reporting the resource absent;
it times out whenever the elapsed time exceeds the deadline; a returned lease
always comes from a fetched detail that is RUNNING, has a non-empty public
address, and has every required port mapped; and such a detail does produce
its lease. -/
theorem waitForReady_spec :
    (∀ (rp : List String) (tmo poll : Nat) (id : String) (fetches : List FetchOutcome)
        (elapsed : Nat), elapsed > tmo →
      waitForReady rp tmo poll id fetches elapsed = some WaitOutcome.timedOut) ∧
    (∀ (rp : List String) (tmo poll : Nat) (id : String) (rest : List FetchOutcome)
        (elapsed : Nat), elapsed ≤ tmo →
      waitForReady rp tmo poll id (FetchOutcome.notFound :: rest) elapsed =
        some (WaitOutcome.podNotFound id)) ∧
    (∀ (rp : List String) (tmo poll : Nat) (id : String) (fetches : List FetchOutcome)
        (elapsed : Nat) (l : PodLease),
      waitForReady rp tmo poll id fetches elapsed = some (WaitOutcome.lease l) →
      ∃ pod, FetchOutcome.found pod ∈ fetches ∧ leaseOf rp pod = some l ∧
        pod.desiredStatus = some "RUNNING" ∧
        (∃ ip, pod.publicIp = some ip ∧ ip ≠ "" ∧ l.public_ip = ip) ∧
        rp.all (fun spec =>
          requiredPortOk (buildPortMappings (pod.portMappings.getD [])) spec) = true) ∧
    (∀ (rp : List String) (tmo poll : Nat) (id : String) (pod : PodDetails)
        (rest : List FetchOutcome) (elapsed : Nat) (l : PodLease), elapsed ≤ tmo →
      leaseOf rp pod = some l →
      waitForReady rp tmo poll id (FetchOutcome.found pod :: rest) elapsed =
        some (WaitOutcome.lease l)) := by
  refine ⟨?_, ?_, ?_, ?_⟩
  · intro rp tmo poll id fetches elapsed h
    rw [waitForReady.eq_def]
    simp [h]
  · intro rp tmo poll id rest elapsed h
    simp [waitForReady, Nat.not_lt.mpr h]
  · intro rp tmo poll id fetches
    induction fetches with
    | nil =>
      intro elapsed l h
      rw [waitForReady.eq_def] at h
      split_ifs at h <;> simp at h
    | cons f rest ih =>
      intro elapsed l h
      rw [waitForReady.eq_def] at h
      split_ifs at h with htmo
      · simp at h
      · cases f with
        | fetchErr => simp at h
        | notFound => simp at h
        | found pod =>
          rcases hl : leaseOf rp pod with _ | l'
          · simp only [hl] at h
            obtain ⟨pod', hmem, hrest⟩ := ih _ _ h
            exact ⟨pod', by simp [hmem], hrest⟩
          · simp only [hl, Option.some.injEq, WaitOutcome.lease.injEq] at h
            subst h
            obtain ⟨h1, h2, h3⟩ := leaseOf_some rp pod l' hl
            exact ⟨pod, by simp, hl, h1, h2, h3⟩
  · intro rp tmo poll id pod rest elapsed l h hl
    simp [waitForReady, Nat.not_lt.mpr h, hl]

/-- Example ready pod detail for the C10 witness. -/
def cxPod : PodDetails :=
  { id := "pod-1", name := none, desiredStatus := some "RUNNING",
    imageName := none, publicIp := some "1.2.3.4",
    portMappings := some [("22", 10022)], ports := none }

/-- Example lease produced from `cxPod` with required port "22/tcp". -/
def cxLease : PodLease :=
  { id := "pod-1", name := "", public_ip := "1.2.3.4",
    port_mappings := [(22, 10022)], desired_status := "RUNNING" }

/-- C10 witness. -/
theorem waitForReady_spec_witness :
    waitForReady ["22/tcp"] 1000 10 "p1" [] 2000 = some WaitOutcome.timedOut ∧
    waitForReady ["22/tcp"] 1000 10 "p1" [FetchOutcome.notFound] 0 =
      some (WaitOutcome.podNotFound "p1") ∧
    waitForReady ["22/tcp"] 1000 10 "p1" [FetchOutcome.found cxPod] 0 =
      some (WaitOutcome.lease cxLease) :=
  ⟨waitForReady_spec.1 ["22/tcp"] 1000 10 "p1" [] 2000 (by decide),
   waitForReady_spec.2.1 ["22/tcp"] 1000 10 "p1" [] 0 (by decide),
   waitForReady_spec.2.2.2 ["22/tcp"] 1000 10 "p1" cxPod [] 0 cxLease (by decide) (by decide)⟩

end Halldyll
